import Mathlib

/-!
# toy-banklink: payment-lifecycle coordinator

A shallow embedding of the Go packages `dao`, `services` and `handlers`
of the toy-banklink backend, followed by the properties of the
payment-lifecycle coordinator that the specification states.

Conventions of the embedding

* The SQLite table `payments` is a list of rows in insertion (rowid) order.
  Every `db.Exec` / `db.Prepare` takes the error the store itself raises
  (`none` on a working store); a failing statement leaves the table as it was.
* The upstream provider and the clock are inputs: every operation receives
  the replies its HTTP calls get and the clock readings it takes.
* Every operation returns the new state, the trace of the calls it made to
  the upstream and to the DAO, and its Go result.
* Instants are integers, in nanoseconds counted from the zero `time.Time`
  (the expire time of a new service); `time.Duration` is a 64-bit integer
  count of nanoseconds, wrapping in products and saturating in `Sub`.
* A handler that panics before writing writes no response.
-/

set_option autoImplicit false

namespace Banklink

/-! ## Go results -/

/-- Result of a Go function returning `(value, error)`: `ok v` is `(v, nil)`,
`error e` is `(zero, e)`. -/
inductive Result (α : Type) where
  | ok (value : α)
  | error (err : String)
  deriving DecidableEq, Repr

/-- Result of a Go function returning `(value, error)` that can also stop in
a run-time panic (here: an index out of range). -/
inductive Outcome (α : Type) where
  | ok (value : α)
  | error (err : String)
  | panic (msg : String)
  deriving DecidableEq, Repr

/-- Run-time panic raised by `xs[0]` on an empty slice. -/
def indexOutOfRange : String := "runtime error: index out of range [0] with length 0"

/-! ## Package `dao` -/

namespace dao

/-- One row of the table `payments` created by `CreateTable`:
`id string PRIMARY KEY NOT NULL, receiver_id TEXT NOT NULL, amount INTEGER NOT NULL,
status TEXT DEFAULT unpaid, truelayer_payment_id TEXT DEFAULT ''`. -/
structure Row where
  id : String
  receiver_id : String
  amount : Int
  status : String
  truelayer_payment_id : String
  deriving DecidableEq, Repr

/-- The database behind `paymentDAO`: the rows of `payments`, oldest first. -/
abbrev DB := List Row

/-- Column default of `status` in `CreateTable`. -/
def statusDefault : String := "unpaid"

/-- Column default of `truelayer_payment_id` in `CreateTable`. -/
def truelayerPaymentIDDefault : String := ""

/-- GetPaymentDataResponse used to respond with received payment data. -/
structure GetPaymentDataResponse where
  UUID : String
  ReceiverID : String
  Amount : Int
  Status : String
  TrueLayerPaymentID : String
  deriving DecidableEq, Repr

/-- Error of `Row.Scan` when the query selected no row (`sql.ErrNoRows`). -/
def errNoRows : String := "sql: no rows in result set"

/-- Error of an `INSERT` whose `id` is already present (primary key). -/
def errUniqueID : String := "UNIQUE constraint failed: payments.id"

/-- The `Scan` of `GetPayment` and `GetPaymentByTruelayerID`: the five
selected columns, in order, into the response. -/
def scan (r : Row) : GetPaymentDataResponse :=
  { UUID := r.id, ReceiverID := r.receiver_id, Amount := r.amount,
    Status := r.status, TrueLayerPaymentID := r.truelayer_payment_id }

/-- MapToTruelayer: `UPDATE payments SET truelayer_payment_id = ? WHERE id = ?`;
returns the error of `Exec` and nothing else (the `sql.Result` is dropped). -/
def MapToTruelayer (db : DB) (execErr : Option String) (uuid truelayerID : String) :
    DB × Option String :=
  match execErr with
  | some e => (db, some e)
  | none =>
    (db.map fun r => if r.id = uuid then { r with truelayer_payment_id := truelayerID } else r,
     none)

/-- UpdatePaymentStatus: `UPDATE payments SET status = ? WHERE truelayer_payment_id = ?`;
returns the error of `Exec` and nothing else (the `sql.Result` is dropped). -/
def UpdatePaymentStatus (db : DB) (execErr : Option String) (truelayerID status : String) :
    DB × Option String :=
  match execErr with
  | some e => (db, some e)
  | none =>
    (db.map fun r => if r.truelayer_payment_id = truelayerID then { r with status := status } else r,
     none)

/-- InsertPayment: `INSERT INTO payments (id, receiver_id, amount) VALUES (?, ?, ?)`
with `uuidValue` the value `uuid.New()` produced; `status` and
`truelayer_payment_id` take their column defaults. -/
def InsertPayment (db : DB) (uuidValue : String) (execErr : Option String)
    (receiverID : String) (amount : Int) : DB × Result String :=
  match execErr with
  | some e => (db, .error e)
  | none =>
    if db.any (fun r => decide (r.id = uuidValue)) then (db, .error errUniqueID)
    else
      (db ++ [{ id := uuidValue, receiver_id := receiverID, amount := amount,
                status := statusDefault, truelayer_payment_id := truelayerPaymentIDDefault }],
       .ok uuidValue)

/-- GetPayment: `SELECT ... FROM payments WHERE id = ?`, first row. -/
def GetPayment (db : DB) (queryErr : Option String) (uuid : String) :
    Result GetPaymentDataResponse :=
  match queryErr with
  | some e => .error e
  | none =>
    match db.find? (fun r => decide (r.id = uuid)) with
    | none => .error errNoRows
    | some r => .ok (scan r)

/-- GetPaymentByTruelayerID: `SELECT ... FROM payments WHERE truelayer_payment_id = ?`,
first row. -/
def GetPaymentByTruelayerID (db : DB) (queryErr : Option String) (truelayerID : String) :
    Result GetPaymentDataResponse :=
  match queryErr with
  | some e => .error e
  | none =>
    match db.find? (fun r => decide (r.truelayer_payment_id = truelayerID)) with
    | none => .error errNoRows
    | some r => .ok (scan r)

end dao

/-! ## Package `services` -/

namespace services

/-- CreatePaymentRequest used to make a request to the truelayer API. -/
structure CreatePaymentRequest where
  UUID : String
  Amount : Int
  Currency : String
  BeneficiaryName : String
  BeneficiaryReference : String
  BeneficiarySortCode : String
  BeneficiaryAccountNumber : String
  RemitterReference : String
  RedirectURI : String
  RemitterProviderID : String
  deriving DecidableEq, Repr

structure getAccessTokenResponse where
  AccessToken : String
  ExpiresIn : Int
  TokenType : String
  Scope : String
  deriving DecidableEq, Repr

structure createPaymentResult where
  SimpID : String
  AuthURI : String
  deriving DecidableEq, Repr

structure createPaymentResponse where
  Results : List createPaymentResult
  deriving DecidableEq, Repr

structure getPaymentResult where
  Status : String
  deriving DecidableEq, Repr

structure getPaymentResponse where
  Results : List getPaymentResult
  deriving DecidableEq, Repr

/-- The body of an upstream response as the code sees it: `unreadable` fails
both `ioutil.ReadAll` and the JSON decoder, `malformed` fails the decoder
only, `json v` decodes into the value `v`. -/
inductive Body (β : Type) where
  | unreadable (err : String)
  | malformed (err : String)
  | json (v : β)
  deriving DecidableEq, Repr

/-- What an HTTP call to the upstream yields: a transport error (also a
timeout), or a response with its status code and body. -/
inductive HttpReply (β : Type) where
  | transportError (err : String)
  | response (StatusCode : Nat) (body : Body β)
  deriving DecidableEq, Repr

/-- The calls an operation makes to the upstream provider and to the DAO. -/
inductive Event where
  | tokenRequest (clientID clientSecret : String)
  | createPaymentRequest (token : String) (data : CreatePaymentRequest)
  | paymentStatusRequest (token paymentID : String)
  | MapToTruelayer (uuid truelayerID : String)
  | UpdatePaymentStatus (truelayerID status : String)
  | InsertPayment (receiverID : String) (amount : Int)
  | GetPayment (uuid : String)
  | GetPaymentByTruelayerID (truelayerID : String)
  deriving DecidableEq, Repr

/-- The `service` object; `paymentDAO` is the database its DAO works on. -/
structure service where
  paymentDAO : dao.DB
  clientID : String
  clientSecret : String
  authToken : String
  authTokenExpireTime : Int
  deriving DecidableEq, Repr

/-- GetService returns the service object: empty token, zero expire time. -/
def GetService (db : dao.DB) (clientID clientSecret : String) : service :=
  { paymentDAO := db, clientID := clientID, clientSecret := clientSecret,
    authToken := "", authTokenExpireTime := 0 }

/-- State after an operation, the calls it made, and its Go result. -/
structure Run (α : Type) where
  state : service
  trace : List Event
  out : α
  deriving DecidableEq, Repr

/-! ### Time -/

namespace time

/-- The least `time.Duration`. -/
def minDuration : Int := -(2 ^ 63)

/-- The greatest `time.Duration`. -/
def maxDuration : Int := 2 ^ 63 - 1

/-- A 64-bit signed integer after overflow (two's complement). -/
def wrapInt64 (x : Int) : Int := (x + 2 ^ 63) % 2 ^ 64 - 2 ^ 63

/-- Nanoseconds in `time.Second`. -/
def Second : Int := 1000000000

/-- The duration `time.Duration(n) * time.Second`. -/
def secondsDuration (n : Int) : Int := wrapInt64 (n * Second)

/-- The duration `t.Sub(u)`: the difference, saturated to the range of
`time.Duration`. -/
def Sub (t u : Int) : Int :=
  if t - u < minDuration then minDuration
  else if maxDuration < t - u then maxDuration
  else t - u

/-- The duration `time.Until(t)` at clock reading `now`. -/
def Until (now t : Int) : Int := Sub t now

end time

/-! ### Access token -/

/-- What the environment gives one call of `GetAccessToken`: the clock
reading of `time.Until`, the reply to `POST /connect/token` should the call
be made, and the clock reading of `time.Now` in `SetAccessToken`. -/
structure TokenEnv where
  now : Int
  tokenReply : HttpReply getAccessTokenResponse
  nowSet : Int
  deriving DecidableEq, Repr

/-- SetAccessToken: request a token; on a decoded reply store it with its
expire time. The status code of the reply is not looked at. -/
def SetAccessToken (s : service) (env : TokenEnv) : Run (Result String) :=
  let tr := [Event.tokenRequest s.clientID s.clientSecret]
  match env.tokenReply with
  | .transportError e => ⟨s, tr, .error e⟩
  | .response _ (.unreadable e) => ⟨s, tr, .error e⟩
  | .response _ (.malformed e) => ⟨s, tr, .error e⟩
  | .response _ (.json response) =>
    ⟨{ s with authTokenExpireTime := env.nowSet + time.secondsDuration response.ExpiresIn,
              authToken := response.AccessToken },
     tr, .ok response.AccessToken⟩

/-- GetAccessToken checks if access token is not expired and returns it.
If access token is expired then asks for a new one and returns that one instead. -/
def GetAccessToken (s : service) (env : TokenEnv) : Run (Result String) :=
  if time.Until env.now s.authTokenExpireTime ≤ 0 then
    match SetAccessToken s env with
    | ⟨s', tr, .error _⟩ => ⟨s', tr, .ok ""⟩
    | ⟨s', tr, .ok newToken⟩ => ⟨s', tr, .ok newToken⟩
  else ⟨s, [], .ok s.authToken⟩

/-- Successive calls of `GetAccessToken`, one per environment: the final
state, all calls made, and the results in order. -/
def GetAccessTokens (s : service) : List TokenEnv → Run (List (Result String))
  | [] => ⟨s, [], []⟩
  | env :: envs =>
    let r := GetAccessToken s env
    let rs := GetAccessTokens r.state envs
    ⟨rs.state, r.trace ++ rs.trace, r.out :: rs.out⟩

/-! ### Payment creation -/

/-- Error of `createPayment` on a reply whose status code is not 200. -/
def errNot200 : String := "truelayer API did not respond with code 200"

/-- What the environment gives one call of `RequestPaymentURL`: the token
environment, the reply to `POST /single-immediate-payments`, and the error
of the store on the `UPDATE` of `MapToTruelayer`. -/
structure PayEnv where
  token : TokenEnv
  payReply : HttpReply createPaymentResponse
  mapErr : Option String
  deriving DecidableEq, Repr

/-- The function `createPayment`: post the payment, and on a 200 reply map
the payment `uuid` to the `simp_id` of the first result and return its
`auth_uri`. `json.Marshal` of the request and `http.NewRequest` on the
constant URL do not fail. `response.Results[0]` is evaluated before
`MapToTruelayer` is called. -/
def createPayment (s : service) (payReply : HttpReply createPaymentResponse)
    (mapErr : Option String) (token uuid : String) (data : CreatePaymentRequest) :
    Run (Outcome String) :=
  let tr := [Event.createPaymentRequest token data]
  match payReply with
  | .transportError e => ⟨s, tr, .error e⟩
  | .response StatusCode body =>
    if StatusCode ≠ 200 then
      match body with
      | .unreadable readErr => ⟨s, tr, .error readErr⟩
      | .malformed _ => ⟨s, tr, .error errNot200⟩
      | .json _ => ⟨s, tr, .error errNot200⟩
    else
      match body with
      | .unreadable e => ⟨s, tr, .error e⟩
      | .malformed e => ⟨s, tr, .error e⟩
      | .json response =>
        match response.Results with
        | [] => ⟨s, tr, .panic indexOutOfRange⟩
        | r0 :: _ =>
          let tr2 := tr ++ [Event.MapToTruelayer uuid r0.SimpID]
          match dao.MapToTruelayer s.paymentDAO mapErr uuid r0.SimpID with
          | (db, some e) => ⟨{ s with paymentDAO := db }, tr2, .error e⟩
          | (db, none) => ⟨{ s with paymentDAO := db }, tr2, .ok r0.AuthURI⟩

/-- RequestPaymentUrl returns Truelayer payment url that can be used for payment. -/
def RequestPaymentURL (s : service) (env : PayEnv) (request : CreatePaymentRequest) :
    Run (Outcome String) :=
  let t := GetAccessToken s env.token
  match t.out with
  | .error e => ⟨t.state, t.trace, .error e⟩
  | .ok token =>
    let r := createPayment t.state env.payReply env.mapErr token request.UUID request
    ⟨r.state, t.trace ++ r.trace, r.out⟩

/-! ### Reconciliation -/

/-- What the environment gives one call of `RequestPaymentData`: the error
of `http.NewRequest` on the URL built from the payment id, the token
environment, the reply to `GET /single-immediate-payments/<id>`, and the
errors of the store on the `SELECT` and on the `UPDATE`. -/
structure DataEnv where
  newRequestErr : Option String
  token : TokenEnv
  statusReply : HttpReply getPaymentResponse
  queryErr : Option String
  updateErr : Option String
  deriving DecidableEq, Repr

/-- RequestPaymentData requests for payment data from Truelayer API: it reads
the record by truelayer id, writes the status of the first result into it,
and returns the record as read. The status code of the reply is not looked
at; `response.Results[0]` is evaluated after the read and before
`UpdatePaymentStatus` is called. -/
def RequestPaymentData (s : service) (env : DataEnv) (paymentID : String) :
    Run (Outcome dao.GetPaymentDataResponse) :=
  match env.newRequestErr with
  | some e => ⟨s, [], .error e⟩
  | none =>
    let t := GetAccessToken s env.token
    match t.out with
    | .error e => ⟨t.state, t.trace, .error e⟩
    | .ok token =>
      let tr := t.trace ++ [Event.paymentStatusRequest token paymentID]
      match env.statusReply with
      | .transportError e => ⟨t.state, tr, .error e⟩
      | .response _ (.unreadable e) => ⟨t.state, tr, .error e⟩
      | .response _ (.malformed e) => ⟨t.state, tr, .error e⟩
      | .response _ (.json response) =>
        let tr2 := tr ++ [Event.GetPaymentByTruelayerID paymentID]
        match dao.GetPaymentByTruelayerID t.state.paymentDAO env.queryErr paymentID with
        | .error e => ⟨t.state, tr2, .error e⟩
        | .ok paymentDetails =>
          match response.Results with
          | [] => ⟨t.state, tr2, .panic indexOutOfRange⟩
          | r0 :: _ =>
            let tr3 := tr2 ++ [Event.UpdatePaymentStatus paymentID r0.Status]
            match dao.UpdatePaymentStatus t.state.paymentDAO env.updateErr paymentID r0.Status with
            | (db, some e) => ⟨{ t.state with paymentDAO := db }, tr3, .error e⟩
            | (db, none) => ⟨{ t.state with paymentDAO := db }, tr3, .ok paymentDetails⟩

/-! ### Local operations -/

/-- What the environment gives one call of `PreparePayment`: the value of
`uuid.New()` and the error of the store on the `INSERT`. -/
structure PrepareEnv where
  uuidValue : String
  execErr : Option String
  deriving DecidableEq, Repr

/-- PreparePayment prepares a new payment to be used for payment process by Truelayer. -/
def PreparePayment (s : service) (env : PrepareEnv) (receiverID : String) (amount : Int) :
    Run (Result String) :=
  let tr := [Event.InsertPayment receiverID amount]
  match dao.InsertPayment s.paymentDAO env.uuidValue env.execErr receiverID amount with
  | (db, .error e) => ⟨{ s with paymentDAO := db }, tr, .error e⟩
  | (db, .ok uuid) => ⟨{ s with paymentDAO := db }, tr, .ok uuid⟩

/-- GetPaymentData returns existing payment data from the database. -/
def GetPaymentData (s : service) (queryErr : Option String) (uuid : String) :
    Run (Result dao.GetPaymentDataResponse) :=
  match dao.GetPayment s.paymentDAO queryErr uuid with
  | .error e => ⟨s, [Event.GetPayment uuid], .error e⟩
  | .ok resp => ⟨s, [Event.GetPayment uuid], .ok resp⟩

end services

/-! ## Package `handlers` -/

namespace handlers

open services

/-- The value `httpError` that `writeError` encodes as the JSON body. -/
structure httpError where
  Message : String
  deriving DecidableEq, Repr

/-- What a handler wrote to the `http.ResponseWriter`: the status code, the
headers it set (in the order it set them), the `httpError` it encoded into
the body, if any, and whether `http.Redirect` wrote its short HTML note
(a link to the target) into the body. -/
structure Response where
  StatusCode : Nat
  Header : List (String × String)
  Body : Option httpError
  Note : Bool
  deriving DecidableEq, Repr

/-- What the client of a handler gets: the response written, or nothing when
the handler panicked before writing (the server drops the connection). -/
inductive Served where
  | response (r : Response)
  | aborted (panicMsg : String)
  deriving DecidableEq, Repr

/-- HTTPError outputs json encoded error message to response writer:
`setHeaders` sets the content type and the code, `writeError` encodes the
message. -/
def HTTPError (message : String) (httpCode : Nat) : Response :=
  { StatusCode := httpCode, Header := [("Content-Type", "application/json")],
    Body := some { Message := message }, Note := false }

/-- Lower-case hexadecimal digit. -/
def hexDigit (n : Nat) : Char := "0123456789abcdef".toList.getD n '0'

/-- The function `hexEscapeNonASCII` of `net/http`: every byte of a
non-ASCII character becomes `%xx`. -/
def hexEscapeNonASCII (s : String) : String :=
  String.mk (s.toList.flatMap fun c =>
    if c.toNat < 128 then [c]
    else (String.utf8EncodeChar c).flatMap fun b =>
      ['%', hexDigit (b.toNat / 16), hexDigit (b.toNat % 16)])

/-- The function `http.Redirect` on an absolute URL. `hadCT` tells whether a
`Content-Type` header was already set on the writer and `method` is the
method of the request. It sets `Location`; when no content type was set and
the method is `GET` or `HEAD` it sets `Content-Type: text/html; charset=utf-8`;
it writes the status code; and when no content type was set and the method
is `GET` it writes the HTML note into the body. -/
def Redirect (hadCT : Bool) (method : String) (url : String) (code : Nat) : Response :=
  { StatusCode := code,
    Header := ("Location", hexEscapeNonASCII url) ::
      (if !hadCT && (method == "GET" || method == "HEAD")
        then [("Content-Type", "text/html; charset=utf-8")] else []),
    Body := none,
    Note := !hadCT && method == "GET" }

/-- The parsed query of a request URL, as key/value pairs in order. -/
abbrev Values := List (String × String)

/-- The map lookup `r.URL.Query()[key]`: the values of `key`, in order; the
key is found when there is at least one. -/
def Values.get (q : Values) (key : String) : List String :=
  (q.filter fun kv => decide (kv.1 = key)).map fun kv => kv.2

/-- Message of `BankCallback` when the query has no `payment_id`. -/
def msgPaymentIDMissing : String := "Invalid input: payment_id parameter missing"

/-- The run of `BankCallback`: the state, the argument with which
`RequestPaymentData` was invoked (if it was), the calls made, and what the
client gets. -/
structure CallbackRun where
  state : service
  invoked : Option String
  trace : List Event
  served : Served
  deriving DecidableEq, Repr

/-- BankCallback handles callback event from truelayer and redirects user to payment page.
Of its arguments `w` and `r` it takes `hadCT`, whether a `Content-Type`
header is already set on the writer (the middleware of `main.go` sets one),
the method of the request (the route is registered for `GET`), and the
parsed query. -/
def BankCallback (hadCT : Bool) (method : String) (s : service) (env : DataEnv)
    (query : Values) : CallbackRun :=
  match Values.get query "payment_id" with
  | [] => ⟨s, none, [], .response (HTTPError msgPaymentIDMissing 400)⟩
  | paymentID0 :: _ =>
    let r := RequestPaymentData s env paymentID0
    match r.out with
    | .error e =>
      ⟨r.state, some paymentID0, r.trace,
       .response (HTTPError ("Unable to process bank callback: " ++ e) 500)⟩
    | .panic m => ⟨r.state, some paymentID0, r.trace, .aborted m⟩
    | .ok resp =>
      ⟨r.state, some paymentID0, r.trace,
       .response (Redirect hadCT method
         ("http://localhost:80/index.html?uuid=" ++ resp.UUID ++ "&notify=true") 302)⟩

end handlers

/-! ## The specification's vocabulary and the examples used below -/

open dao services handlers

/-- The terminal statuses of the specification (section 3). The code has no
such notion; the predicate is used to state the properties only. -/
abbrev terminal (status : String) : Prop :=
  status = "succeeded" ∨ status = "failed" ∨ status = "cancelled"

/-- A record `U1` mapped to upstream payment `T1`, already `succeeded`. -/
def rowSucceeded : Row :=
  { id := "U1", receiver_id := "M1", amount := 1299, status := "succeeded",
    truelayer_payment_id := "T1" }

/-- A service holding `rowSucceeded` and a token valid until instant 2000. -/
def svcSucceeded : service :=
  { paymentDAO := [rowSucceeded], clientID := "id", clientSecret := "secret",
    authToken := "tok", authTokenExpireTime := 2000 }

/-- Clock at 1000, so a token valid until 2000 is served from the cache. -/
def tokenEnvCached : TokenEnv :=
  { now := 1000, tokenReply := .transportError "not reached", nowSet := 1000 }

/-- The upstream reports `failed` for the payment. -/
def envReportsFailed : DataEnv :=
  { newRequestErr := none, token := tokenEnvCached,
    statusReply := .response 200 (.json ⟨[⟨"failed"⟩]⟩), queryErr := none, updateErr := none }

/-- A freshly prepared record `U1`, not yet mapped. -/
def rowU1 : Row :=
  { id := "U1", receiver_id := "M1", amount := 1299, status := "unpaid",
    truelayer_payment_id := "" }

/-- A second freshly prepared record `U2`, not yet mapped. -/
def rowU2 : Row :=
  { id := "U2", receiver_id := "M2", amount := 500, status := "unpaid",
    truelayer_payment_id := "" }

/-- A service with an empty table and a cached token. -/
def svcEmpty : service :=
  { paymentDAO := [], clientID := "id", clientSecret := "secret",
    authToken := "tok", authTokenExpireTime := 2000 }

/-- A service holding `rowU1` and a cached token. -/
def svcU1 : service := { svcEmpty with paymentDAO := [rowU1] }

/-- A service holding `rowU1` and `rowU2` and a cached token. -/
def svcU1U2 : service := { svcEmpty with paymentDAO := [rowU1, rowU2] }

/-- A payment request for record `U1`. -/
def requestU1 : CreatePaymentRequest :=
  { UUID := "U1", Amount := 1299, Currency := "GBP", BeneficiaryName := "M1",
    BeneficiaryReference := "ref", BeneficiarySortCode := "123456",
    BeneficiaryAccountNumber := "12345678", RemitterReference := "ref",
    RedirectURI := "http://localhost:3000/api/callback", RemitterProviderID := "mock" }

/-- The upstream creates the payment `T1`. -/
def envCreatesT1 : PayEnv :=
  { token := tokenEnvCached,
    payReply := .response 200 (.json ⟨[⟨"T1", "https://auth.example/x"⟩]⟩), mapErr := none }

/-- The upstream answers 200 with a first result that carries no `simp_id`. -/
def envCreatesNoID : PayEnv :=
  { token := tokenEnvCached,
    payReply := .response 200 (.json ⟨[⟨"", "https://auth.example/x"⟩]⟩), mapErr := none }

/-- A service as `GetService` returns it (no token yet) holding `rowU1`. -/
def svcFresh : service := GetService [rowU1] "id" "secret"

/-- The token endpoint answers with token `tok2`, valid for 3600 seconds. -/
def tokenEnvIssues : TokenEnv :=
  { now := 5000, tokenReply := .response 200 (.json ⟨"tok2", 3600, "Bearer", "payments"⟩),
    nowSet := 5007 }

/-- A later call, at instant 9000, inside the validity of the token issued
by `tokenEnvIssues`. -/
def tokenEnvLater : TokenEnv :=
  { now := 9000, tokenReply := .transportError "not reached", nowSet := 9000 }

/-- The token endpoint answers with token `tok2` and an `expires_in` of
9223372037 seconds, one more than fits a `time.Duration`; the clock stands
at an instant of the year 2000. -/
def tokenEnvLongTTL : TokenEnv :=
  { now := 63082281600000000000,
    tokenReply := .response 200 (.json ⟨"tok2", 9223372037, "Bearer", "payments"⟩),
    nowSet := 63082281600000000000 }

/-- The next call, one nanosecond after the token of `tokenEnvLongTTL` was
stored; the token endpoint answers `tok3`, valid 3600 seconds. -/
def tokenEnvJustAfter : TokenEnv :=
  { now := 63082281600000000001,
    tokenReply := .response 200 (.json ⟨"tok3", 3600, "Bearer", "payments"⟩),
    nowSet := 63082281600000000001 }

/-- The token endpoint cannot be reached. -/
def tokenEnvDown : TokenEnv :=
  { now := 5000, tokenReply := .transportError "dial tcp: i/o timeout", nowSet := 5007 }

/-- The token endpoint answers 401 with a JSON error body, which decodes
into a response with empty fields. -/
def tokenEnvRejected : TokenEnv :=
  { now := 5000, tokenReply := .response 401 (.json ⟨"", 0, "", ""⟩), nowSet := 5007 }

/-- The token endpoint answers with a body that is not JSON. -/
def tokenEnvGarbled : TokenEnv :=
  { now := 5000, tokenReply := .response 200 (.malformed "invalid character"), nowSet := 5007 }

/-- The token endpoint is down and the payment endpoint creates `T1`. -/
def envTokenDownCreatesT1 : PayEnv := { envCreatesT1 with token := tokenEnvDown }

/-- The token endpoint is down and the status endpoint reports `executed`. -/
def envTokenDownReportsExecuted : DataEnv :=
  { newRequestErr := none, token := tokenEnvDown,
    statusReply := .response 200 (.json ⟨[⟨"executed"⟩]⟩), queryErr := none, updateErr := none }

/-- The record `U1` mapped to upstream payment `T1`, still `unpaid`. -/
def rowMapped : Row :=
  { id := "U1", receiver_id := "M1", amount := 1299, status := "unpaid",
    truelayer_payment_id := "T1" }

/-- A service as `GetService` returns it (no token yet) holding `rowMapped`. -/
def svcFreshMapped : service := GetService [rowMapped] "id" "secret"

/-- The payment endpoint answers 200 with an empty `results` list. -/
def payReplyNoResults : HttpReply createPaymentResponse := .response 200 (.json ⟨[]⟩)

/-- The status endpoint reports `executed`; the token is served from the cache. -/
def envReportsExecuted : DataEnv :=
  { newRequestErr := none, token := tokenEnvCached,
    statusReply := .response 200 (.json ⟨[⟨"executed"⟩]⟩), queryErr := none, updateErr := none }

/-- The status endpoint answers with a JSON body that has no `results`, as
an error body does (the status code is not looked at); the token is served
from the cache. -/
def envReportsNothing : DataEnv :=
  { newRequestErr := none, token := tokenEnvCached,
    statusReply := .response 401 (.json ⟨[]⟩), queryErr := none, updateErr := none }

/-- A service holding `rowMapped` and a cached token. -/
def svcMapped : service := { svcEmpty with paymentDAO := [rowMapped] }

/-- The query of `GET /api/callback?payment_id=T1`. -/
def queryT1 : Values := [("payment_id", "T1")]

/-! ## Concurrent callers of `GetAccessToken`

The server runs every request in a goroutine of its own and all of them work
on the one `*service`. `GetAccessToken` and `SetAccessToken` take no lock, so
the goroutines interleave at the reads and writes of `authTokenExpireTime`
and `authToken` and at the HTTP call. A goroutine is `GetAccessToken` cut at
these points; a machine is the shared service, the calls made so far and the
goroutines; a schedule names the goroutine that takes the next step. -/

namespace concurrent

/-- Where a goroutine stands in `GetAccessToken` / `SetAccessToken`:
before the test of `time.Until(s.authTokenExpireTime)`; before `http.Post`;
before the write of `s.authTokenExpireTime` and before the write of
`s.authToken` (holding the decoded response); before the read of
`s.authToken` in `return s.authToken, nil`; returned. -/
inductive PC where
  | check
  | post
  | storeExpire (response : getAccessTokenResponse)
  | storeToken (response : getAccessTokenResponse)
  | readToken
  | done (out : Result String)
  deriving DecidableEq, Repr

/-- A goroutine running `GetAccessToken`: what the environment gives its
call, and where it stands. -/
structure Goroutine where
  env : TokenEnv
  pc : PC
  deriving DecidableEq, Repr

/-- One step of a goroutine on the shared service: the service after the
step, the call made in the step, and the goroutine after it. A failed
`SetAccessToken` makes `GetAccessToken` return the empty token and no error. -/
def stepGoroutine (s : service) (g : Goroutine) : Run Goroutine :=
  match g.pc with
  | .check =>
    if time.Until g.env.now s.authTokenExpireTime ≤ 0 then ⟨s, [], { g with pc := .post }⟩
    else ⟨s, [], { g with pc := .readToken }⟩
  | .post =>
    let tr := [Event.tokenRequest s.clientID s.clientSecret]
    match g.env.tokenReply with
    | .transportError _ => ⟨s, tr, { g with pc := .done (.ok "") }⟩
    | .response _ (.unreadable _) => ⟨s, tr, { g with pc := .done (.ok "") }⟩
    | .response _ (.malformed _) => ⟨s, tr, { g with pc := .done (.ok "") }⟩
    | .response _ (.json response) => ⟨s, tr, { g with pc := .storeExpire response }⟩
  | .storeExpire response =>
    ⟨{ s with authTokenExpireTime := g.env.nowSet + time.secondsDuration response.ExpiresIn },
     [], { g with pc := .storeToken response }⟩
  | .storeToken response =>
    ⟨{ s with authToken := response.AccessToken }, [],
     { g with pc := .done (.ok response.AccessToken) }⟩
  | .readToken => ⟨s, [], { g with pc := .done (.ok s.authToken) }⟩
  | .done _ => ⟨s, [], g⟩

/-- The shared service, the calls made so far, and the goroutines. -/
structure Machine where
  shared : service
  trace : List Event
  callers : List Goroutine
  deriving DecidableEq, Repr

/-- Goroutine `i` takes one step (nothing happens when there is no such
goroutine). -/
def Machine.step (m : Machine) (i : Nat) : Machine :=
  match m.callers[i]? with
  | none => m
  | some g =>
    let r := stepGoroutine m.shared g
    ⟨r.state, m.trace ++ r.trace, m.callers.set i r.out⟩

/-- The machine after a schedule. -/
def Machine.run (m : Machine) : List Nat → Machine
  | [] => m
  | i :: is => (m.step i).run is

/-- The callers, one per environment, all about to test the cache of `s`. -/
def arrive (s : service) (envs : List TokenEnv) : Machine :=
  ⟨s, [], envs.map fun env => ⟨env, .check⟩⟩

/-- All callers test the cache, one after the other, before any of them goes
on; then the schedule `sched` is run. -/
def raceRun (s : service) (envs : List TokenEnv) (sched : List Nat) : Machine :=
  (arrive s envs).run (List.range envs.length ++ sched)

/-- Whether an event is a token-issuance call. -/
def isTokenRequest : Event → Bool
  | .tokenRequest _ _ => true
  | _ => false

/-- The number of token-issuance calls in a trace. -/
def issuances (tr : List Event) : Nat := tr.countP isTokenRequest

/-- Whether a goroutine stands before `http.Post`. -/
def atPost (g : Goroutine) : Bool :=
  match g.pc with
  | .post => true
  | _ => false

/-- The number of goroutines that stand before `http.Post`. -/
def pending (gs : List Goroutine) : Nat := gs.countP atPost

/-- Whether a goroutine has returned. -/
def returned (g : Goroutine) : Bool :=
  match g.pc with
  | .done _ => true
  | _ => false

/-- What a caller that issues a token request returns: the `access_token`
of its own reply, or the empty token when the request failed. -/
def ownResult (env : TokenEnv) : Result String :=
  match env.tokenReply with
  | .response _ (.json response) => .ok response.AccessToken
  | _ => .ok ""

/-- A goroutine that found the cache expired stands at a point its own
reply allows. -/
def placed (g : Goroutine) : Prop :=
  match g.pc with
  | .check => False
  | .readToken => False
  | .post => True
  | .storeExpire response => ∃ code, g.env.tokenReply = .response code (.json response)
  | .storeToken response => ∃ code, g.env.tokenReply = .response code (.json response)
  | .done out => out = ownResult g.env

/-- A schedule that lets goroutine 0, then 1, ... up to `n - 1` take three
steps each: enough for each to post, write both fields and return. -/
def finishAll : Nat → List Nat
  | 0 => []
  | n + 1 => [0, 0, 0] ++ (finishAll n).map fun i => i + 1

/-- Caller A: its token request is answered `tokA`, valid 60 seconds. -/
def envA : TokenEnv :=
  { now := 5000, tokenReply := .response 200 (.json ⟨"tokA", 60, "Bearer", "payments"⟩),
    nowSet := 5010 }

/-- Caller B: its token request is answered `tokB`, valid 3600 seconds. -/
def envB : TokenEnv :=
  { now := 5001, tokenReply := .response 200 (.json ⟨"tokB", 3600, "Bearer", "payments"⟩),
    nowSet := 5011 }

/-- A third caller, 61 seconds after A stored: the 60 seconds of `tokA` are over. -/
def envC : TokenEnv :=
  { now := 5010 + 61 * 1000000000, tokenReply := .transportError "not reached",
    nowSet := 5010 + 61 * 1000000000 }

/-- After both callers tested the cache: A posts, B posts, A writes the
expire time, B writes the expire time, B writes the token, A writes the token. -/
def schedAB : List Nat := [0, 1, 0, 1, 1, 0]

end concurrent

/-! ## Lemmas -/

theorem Until_nonpos_iff (now t : Int) : time.Until now t ≤ 0 ↔ t - now ≤ 0 := by
  unfold time.Until time.Sub time.minDuration time.maxDuration
  split_ifs <;> omega

theorem secondsDuration_of_range (n : Int) (hlo : -9223372036 ≤ n) (hhi : n ≤ 9223372036) :
    time.secondsDuration n = n * 1000000000 := by
  unfold time.secondsDuration time.wrapInt64 time.Second
  omega

theorem GetAccessToken_paymentDAO (s : service) (env : TokenEnv) :
    (GetAccessToken s env).state.paymentDAO = s.paymentDAO := by
  unfold GetAccessToken SetAccessToken
  split_ifs
  · rcases env.tokenReply with e | ⟨c, e | e | r⟩ <;> rfl
  · rfl

theorem GetAccessToken_hit (s : service) (env : TokenEnv)
    (h : 0 < s.authTokenExpireTime - env.now) :
    GetAccessToken s env = ⟨s, [], .ok s.authToken⟩ := by
  unfold GetAccessToken
  rw [if_neg]
  rw [Until_nonpos_iff]
  omega

theorem RequestPaymentData_ok_inv (s : service) (env : DataEnv) (paymentID : String)
    (rec : GetPaymentDataResponse)
    (h : (RequestPaymentData s env paymentID).out = .ok rec) :
    ∃ code r0 rest, env.statusReply = .response code (.json ⟨r0 :: rest⟩) ∧
      GetPaymentByTruelayerID s.paymentDAO env.queryErr paymentID = .ok rec ∧
      (RequestPaymentData s env paymentID).state.paymentDAO =
        s.paymentDAO.map fun r =>
          if r.truelayer_payment_id = paymentID then { r with status := r0.Status } else r := by
  unfold RequestPaymentData at h ⊢
  rcases hn : env.newRequestErr with _ | e
  · simp only [hn] at h ⊢
    rcases ht : (GetAccessToken s env.token).out with token | e
    · simp only [ht] at h ⊢
      rcases hr : env.statusReply with e | ⟨c, e | e | ⟨results⟩⟩
      · simp [hr] at h
      · simp [hr] at h
      · simp [hr] at h
      · simp only [hr] at h ⊢
        rw [GetAccessToken_paymentDAO] at h ⊢
        rcases hq : GetPaymentByTruelayerID s.paymentDAO env.queryErr paymentID with pd | e
        · simp only [hq] at h ⊢
          rcases results with _ | ⟨r0, rest⟩
          · simp at h
          · refine ⟨c, r0, rest, rfl, ?_⟩
            rcases hu : env.updateErr with _ | e
            · simp [hu, UpdatePaymentStatus] at h ⊢
              exact h
            · simp [hu, UpdatePaymentStatus] at h
        · simp [hq] at h
    · simp [ht] at h
  · simp [hn] at h

/-- The database after `RequestPaymentData` when it does not return a record:
unchanged. -/
theorem RequestPaymentData_not_ok_db (s : service) (env : DataEnv) (paymentID : String)
    (h : ∀ rec, (RequestPaymentData s env paymentID).out ≠ .ok rec) :
    (RequestPaymentData s env paymentID).state.paymentDAO = s.paymentDAO := by
  unfold RequestPaymentData at h ⊢
  rcases hn : env.newRequestErr with _ | e
  · simp only [hn] at h ⊢
    rcases ht : (GetAccessToken s env.token).out with token | e
    · simp only [ht] at h ⊢
      rcases hr : env.statusReply with e | ⟨c, e | e | ⟨results⟩⟩
      · simp [GetAccessToken_paymentDAO]
      · simp [GetAccessToken_paymentDAO]
      · simp [GetAccessToken_paymentDAO]
      · simp only [hr] at h ⊢
        rcases hq : GetPaymentByTruelayerID (GetAccessToken s env.token).state.paymentDAO
            env.queryErr paymentID with pd | e
        · simp only [hq] at h ⊢
          rcases results with _ | ⟨r0, rest⟩
          · simp [GetAccessToken_paymentDAO]
          · rcases hu : env.updateErr with _ | e
            · simp [hu, UpdatePaymentStatus] at h
            · simp [hu, UpdatePaymentStatus, GetAccessToken_paymentDAO]
        · simp [GetAccessToken_paymentDAO]
    · simp [GetAccessToken_paymentDAO]
  · simp

/-- A successful `RequestPaymentURL` got a 200 reply with a first result, the
store accepted the `UPDATE`, and the table is the old one with the `simp_id`
written into the rows of the requested id. -/
theorem RequestPaymentURL_ok_inv (s : service) (env : PayEnv) (request : CreatePaymentRequest)
    (uri : String) (h : (RequestPaymentURL s env request).out = .ok uri) :
    ∃ r0 rest, env.payReply = .response 200 (.json ⟨r0 :: rest⟩) ∧ uri = r0.AuthURI ∧
      (RequestPaymentURL s env request).state.paymentDAO =
        s.paymentDAO.map fun r =>
          if r.id = request.UUID then { r with truelayer_payment_id := r0.SimpID } else r := by
  unfold RequestPaymentURL at h ⊢
  rcases ht : (GetAccessToken s env.token).out with token | e
  · simp only [ht] at h ⊢
    unfold createPayment at h ⊢
    rcases hr : env.payReply with e | ⟨c, body⟩
    · simp [hr] at h
    · simp only [hr] at h ⊢
      by_cases hc : c = 200
      · subst hc
        rcases body with e | e | ⟨results⟩
        · simp at h
        · simp at h
        · rcases results with _ | ⟨r0, rest⟩
          · simp at h
          · refine ⟨r0, rest, rfl, ?_⟩
            rcases hm : env.mapErr with _ | e
            · simp [hm, MapToTruelayer, GetAccessToken_paymentDAO] at h ⊢
              exact h.symm
            · simp [hm, MapToTruelayer] at h
      · rcases body with e | e | v <;> simp [hc] at h
  · simp [ht] at h

/-- The `SELECT` by id after the `UPDATE` of `MapToTruelayer`: when a row of
that id exists, the first one, with the new truelayer id. -/
theorem find?_id_map_truelayer (db : DB) (uuid truelayerID : String)
    (h : ∃ row ∈ db, row.id = uuid) :
    ∃ row ∈ db, row.id = uuid ∧
      (db.map fun r => if r.id = uuid then { r with truelayer_payment_id := truelayerID } else r).find?
        (fun r => decide (r.id = uuid)) = some { row with truelayer_payment_id := truelayerID } := by
  induction db with
  | nil => simp at h
  | cons x xs ih =>
    by_cases hx : x.id = uuid
    · exact ⟨x, List.mem_cons_self _ _, hx, by simp [hx]⟩
    · have h2 : ∃ row ∈ xs, row.id = uuid := by
        obtain ⟨row, hmem, hrow⟩ := h
        rcases List.mem_cons.mp hmem with rfl | hmem
        · exact absurd hrow hx
        · exact ⟨row, hmem, hrow⟩
      obtain ⟨row, hmem, hrow, hfind⟩ := ih h2
      exact ⟨row, List.mem_cons_of_mem _ hmem, hrow, by simp [hx, hfind]⟩

/-- Calls of `GetAccessToken` made while the cached token is valid issue no
token, leave the state as it is and all return the cached token. -/
theorem GetAccessTokens_hits (s : service) (envs : List TokenEnv)
    (h : ∀ e ∈ envs, e.now < s.authTokenExpireTime) :
    GetAccessTokens s envs = ⟨s, [], List.replicate envs.length (.ok s.authToken)⟩ := by
  induction envs with
  | nil => rfl
  | cons e es ih =>
    have he : 0 < s.authTokenExpireTime - e.now := by
      have := h e (List.mem_cons_self _ _)
      omega
    have hes : ∀ e2 ∈ es, e2.now < s.authTokenExpireTime :=
      fun e2 h2 => h e2 (List.mem_cons_of_mem _ h2)
    simp [GetAccessTokens, GetAccessToken_hit s e he, ih hes, List.replicate_succ]

/-- The function `GetAccessToken` never returns an error. -/
theorem GetAccessToken_out_ne_error (s : service) (env : TokenEnv) (e : String) :
    (GetAccessToken s env).out ≠ .error e := by
  unfold GetAccessToken SetAccessToken
  split_ifs
  · rcases env.tokenReply with e | ⟨c, e | e | r⟩ <;> simp
  · simp

/-- The function `createPayment` on a reply whose status is not 200: an
error, no call of `MapToTruelayer`, state unchanged. -/
theorem createPayment_not_200 (s : service) (code : Nat)
    (body : Body createPaymentResponse) (mapErr : Option String) (token uuid : String)
    (data : CreatePaymentRequest) (h : code ≠ 200) :
    ∃ e, createPayment s (.response code body) mapErr token uuid data =
      ⟨s, [Event.createPaymentRequest token data], .error e⟩ := by
  unfold createPayment
  rcases body with e | e | v
  · exact ⟨e, by simp [h]⟩
  · exact ⟨errNot200, by simp [h]⟩
  · exact ⟨errNot200, by simp [h]⟩

/-- What a successful `PreparePayment` did: the store accepted the `INSERT`,
the id was not present, and the new row is appended. -/
theorem PreparePayment_ok_inv (s : service) (env : PrepareEnv) (receiverID : String)
    (amount : Int) (U : String) (h : (PreparePayment s env receiverID amount).out = .ok U) :
    U = env.uuidValue ∧ (∀ r ∈ s.paymentDAO, r.id ≠ U) ∧
    (PreparePayment s env receiverID amount).state =
      { s with paymentDAO := s.paymentDAO ++
          [{ id := U, receiver_id := receiverID, amount := amount, status := "unpaid",
             truelayer_payment_id := "" }] } := by
  unfold PreparePayment InsertPayment at h ⊢
  rcases he : env.execErr with _ | e
  · simp only [he] at h ⊢
    by_cases hany : (s.paymentDAO.any fun r => decide (r.id = env.uuidValue)) = true
    · simp [hany] at h
    · simp only [hany] at h ⊢
      simp only [Bool.false_eq_true, if_false, Outcome.ok.injEq, Result.ok.injEq] at h
      subst h
      refine ⟨rfl, ?_, rfl⟩
      intro r hr hid
      exact hany (List.any_eq_true.mpr ⟨r, hr, by simp [hid]⟩)
  · simp [he] at h

/-- The handler `BankCallback` on a query without `payment_id`: 400 with the
message, `RequestPaymentData` not invoked, no call made, state unchanged. -/
theorem BankCallback_missing_parameter (hadCT : Bool) (method : String) (s : service)
    (env : DataEnv) (query : Values) (h : Values.get query "payment_id" = []) :
    BankCallback hadCT method s env query =
      ⟨s, none, [],
       .response ⟨400, [("Content-Type", "application/json")],
         some ⟨"Invalid input: " ++ "payment_id parameter missing"⟩, false⟩⟩ := by
  unfold BankCallback
  rw [h]
  rfl

/-- The handler `BankCallback` when `RequestPaymentData` returns an error: 500. -/
theorem BankCallback_error (hadCT : Bool) (method : String) (s : service) (env : DataEnv)
    (query : Values) (paymentID : String) (ids : List String) (e : String)
    (h : Values.get query "payment_id" = paymentID :: ids)
    (herr : (RequestPaymentData s env paymentID).out = .error e) :
    (BankCallback hadCT method s env query).served =
      .response ⟨500, [("Content-Type", "application/json")],
        some ⟨"Unable to process bank callback: " ++ e⟩, false⟩ := by
  unfold BankCallback
  rw [h]
  simp only [herr]
  rfl

/-- The handler `BankCallback` on a `GET` request when `RequestPaymentData`
returns a record: 302 to the result page with the local id of the record and
`notify=true`; behind the middleware, which has set a content type, nothing
else is set or written, and on a writer without content type `http.Redirect`
adds its own content type and the HTML note. -/
theorem BankCallback_ok (hadCT : Bool) (s : service) (env : DataEnv) (query : Values)
    (paymentID : String) (ids : List String) (rec : GetPaymentDataResponse)
    (h : Values.get query "payment_id" = paymentID :: ids)
    (hok : (RequestPaymentData s env paymentID).out = .ok rec) :
    (BankCallback hadCT "GET" s env query).served =
      .response ⟨302,
        ("Location",
          hexEscapeNonASCII ("http://localhost:80/index.html?uuid=" ++ rec.UUID ++ "&notify=true")) ::
          (if hadCT then [] else [("Content-Type", "text/html; charset=utf-8")]),
        none, !hadCT⟩ := by
  unfold BankCallback
  rw [h]
  simp only [hok]
  cases hadCT <;> rfl

/-! ## C1: status monotonicity -/

/-- C1 (as stated, refuted): the record `U1` mapped to `T1` is `succeeded`, the
upstream reports `failed`, and after `RequestPaymentData "T1"` the stored
status is `failed`. -/
theorem C1_terminal_status_overwritten :
    rowSucceeded ∈ svcSucceeded.paymentDAO ∧
    rowSucceeded.truelayer_payment_id = "T1" ∧
    terminal rowSucceeded.status ∧
    (RequestPaymentData svcSucceeded envReportsFailed "T1").out = .ok (scan rowSucceeded) ∧
    (RequestPaymentData svcSucceeded envReportsFailed "T1").state.paymentDAO =
      [{ rowSucceeded with status := "failed" }] ∧
    (GetPaymentData (RequestPaymentData svcSucceeded envReportsFailed "T1").state none "U1").out =
      .ok { scan rowSucceeded with Status := "failed" } := by
  decide

/-- C1 (amended): for a record with the given upstream id whose status is
terminal and any status the upstream reports, a call of `RequestPaymentData`
that does not return a record leaves the whole table unchanged, and a call
that returns one has written the reported status into that record: every
record with that upstream id then has the reported status, so the stored
status is unchanged only if the upstream reports it again. -/
theorem C1_RequestPaymentData_writes_reported_status
    (s : service) (env : DataEnv) (paymentID : String) (row : Row)
    (code : Nat) (r0 : getPaymentResult) (rest : List getPaymentResult)
    (hrow : row ∈ s.paymentDAO) (hid : row.truelayer_payment_id = paymentID)
    (hterm : terminal row.status)
    (hreply : env.statusReply = .response code (.json ⟨r0 :: rest⟩)) :
    ((∀ rec, (RequestPaymentData s env paymentID).out ≠ .ok rec) →
      (RequestPaymentData s env paymentID).state.paymentDAO = s.paymentDAO) ∧
    (∀ rec, (RequestPaymentData s env paymentID).out = .ok rec →
      { row with status := r0.Status } ∈ (RequestPaymentData s env paymentID).state.paymentDAO ∧
      (∀ row2 ∈ (RequestPaymentData s env paymentID).state.paymentDAO,
        row2.truelayer_payment_id = paymentID → row2.status = r0.Status) ∧
      ((RequestPaymentData s env paymentID).state.paymentDAO = s.paymentDAO ↔
        ∀ row2 ∈ s.paymentDAO, row2.truelayer_payment_id = paymentID →
          row2.status = r0.Status)) := by
  have _ := hterm
  refine ⟨RequestPaymentData_not_ok_db s env paymentID, ?_⟩
  intro rec hok
  obtain ⟨c, q0, qs, hq, -, hdb⟩ := RequestPaymentData_ok_inv s env paymentID rec hok
  rw [hreply] at hq
  injection hq with _ hb
  injection hb with hv
  injection hv with hl
  injection hl with h0 _
  subst h0
  rw [hdb]
  refine ⟨?_, ?_, ?_⟩
  · refine List.mem_map.mpr ⟨row, hrow, ?_⟩
    simp [hid]
  · intro row2 h2 hid2
    obtain ⟨r, _, rfl⟩ := List.mem_map.mp h2
    by_cases hr : r.truelayer_payment_id = paymentID
    · simp [hr]
    · simp [hr] at hid2
  · have hself : ∀ l : List Row, (l.map fun r =>
          if r.truelayer_payment_id = paymentID then { r with status := r0.Status } else r) = l ↔
        ∀ r ∈ l, r.truelayer_payment_id = paymentID → r.status = r0.Status := by
      intro l
      induction l with
      | nil => simp
      | cons x xs ih =>
        simp only [List.map_cons, List.cons.injEq, ih, List.mem_cons, forall_eq_or_imp]
        refine and_congr_left fun _ => ?_
        by_cases hx : x.truelayer_payment_id = paymentID
        · rcases x with ⟨i, r, a, st, t⟩
          simp only at hx
          simp [hx, eq_comm]
        · simp [hx]
    exact hself s.paymentDAO

/-- C1 (amended), at the record `U1` / `T1` in state `succeeded` with the
upstream reporting `failed`. -/
theorem C1_RequestPaymentData_writes_reported_status_witness :
    (rowSucceeded ∈ svcSucceeded.paymentDAO ∧ rowSucceeded.truelayer_payment_id = "T1" ∧
      terminal rowSucceeded.status ∧
      envReportsFailed.statusReply = .response 200 (.json ⟨[⟨"failed"⟩]⟩) ∧
      (RequestPaymentData svcSucceeded envReportsFailed "T1").out = .ok (scan rowSucceeded)) ∧
    { rowSucceeded with status := "failed" } ∈
      (RequestPaymentData svcSucceeded envReportsFailed "T1").state.paymentDAO :=
  ⟨by decide,
   ((C1_RequestPaymentData_writes_reported_status svcSucceeded envReportsFailed "T1"
      rowSucceeded 200 ⟨"failed"⟩ [] (by decide) (by decide) (by decide) (by decide)).2
        (scan rowSucceeded) (by decide)).1⟩

/-! ## C2: mapping integrity -/

/-- C2 (as stated, refuted): with no record `U1` in the table,
`RequestPaymentURL` for `U1` returns the URL without error and
`GetPaymentData "U1"` then fails; and with the record present but a first
result without `simp_id`, it returns without error and the stored truelayer
id is empty. -/
theorem C2_mapping_not_guaranteed :
    ((RequestPaymentURL svcEmpty envCreatesT1 requestU1).out = .ok "https://auth.example/x" ∧
      (GetPaymentData (RequestPaymentURL svcEmpty envCreatesT1 requestU1).state none
        requestU1.UUID).out = .error errNoRows) ∧
    ((RequestPaymentURL svcU1 envCreatesNoID requestU1).out = .ok "https://auth.example/x" ∧
      (GetPaymentData (RequestPaymentURL svcU1 envCreatesNoID requestU1).state none
        requestU1.UUID).out = .ok (scan rowU1) ∧
      (scan rowU1).TrueLayerPaymentID = "") := by
  decide

/-- C2 (amended): if `RequestPaymentURL` returns successfully and a record
with the id `request.UUID` is in the table, then the upstream answered 200
with a first result, `GetPaymentData request.UUID` afterwards succeeds (on a
working store), returns the record of that id, and its `TrueLayerPaymentID`
equals the `simp_id` of the first result, so it is non-empty whenever that
`simp_id` is. -/
theorem C2_RequestPaymentURL_maps_first_result
    (s : service) (env : PayEnv) (request : CreatePaymentRequest) (uri : String)
    (hok : (RequestPaymentURL s env request).out = .ok uri)
    (hrow : ∃ row ∈ s.paymentDAO, row.id = request.UUID) :
    ∃ r0 rest, env.payReply = .response 200 (.json ⟨r0 :: rest⟩) ∧ uri = r0.AuthURI ∧
      ∃ rec, (GetPaymentData (RequestPaymentURL s env request).state none request.UUID).out =
          .ok rec ∧
        rec.UUID = request.UUID ∧ rec.TrueLayerPaymentID = r0.SimpID ∧
        (r0.SimpID ≠ "" → rec.TrueLayerPaymentID ≠ "") := by
  obtain ⟨r0, rest, hreply, huri, hdb⟩ := RequestPaymentURL_ok_inv s env request uri hok
  obtain ⟨row, _, hid, hfind⟩ := find?_id_map_truelayer s.paymentDAO request.UUID r0.SimpID hrow
  refine ⟨r0, rest, hreply, huri, scan { row with truelayer_payment_id := r0.SimpID }, ?_, ?_, rfl,
    fun h => h⟩
  · unfold GetPaymentData GetPayment
    rw [hdb]
    simp only [hfind]
  · exact hid

/-- C2 (amended), at the record `U1` and the upstream creating `T1`. -/
theorem C2_RequestPaymentURL_maps_first_result_witness :
    ((RequestPaymentURL svcU1 envCreatesT1 requestU1).out = .ok "https://auth.example/x" ∧
      rowU1 ∈ svcU1.paymentDAO ∧ rowU1.id = requestU1.UUID) ∧
    ∃ r0 rest, envCreatesT1.payReply = .response 200 (.json ⟨r0 :: rest⟩) ∧
      "https://auth.example/x" = r0.AuthURI ∧
      ∃ rec, (GetPaymentData (RequestPaymentURL svcU1 envCreatesT1 requestU1).state none
          requestU1.UUID).out = .ok rec ∧
        rec.UUID = requestU1.UUID ∧ rec.TrueLayerPaymentID = r0.SimpID ∧
        (r0.SimpID ≠ "" → rec.TrueLayerPaymentID ≠ "") :=
  ⟨by decide,
   C2_RequestPaymentURL_maps_first_result svcU1 envCreatesT1 requestU1 "https://auth.example/x"
     (by decide) ⟨rowU1, by decide, by decide⟩⟩

/-! ## C3: token cache -/

/-- C3 (as stated, refuted): the token request of a fresh service is answered
with `expires_in = 9223372037`. The product `time.Duration(expires_in) *
time.Second` overflows, the stored `expires_at` is not `now + expires_in
seconds` but an instant before `now`, and the next call, one nanosecond
later and far inside the ttl, issues a token again. -/
theorem C3_long_ttl_wraps :
    ¬ 0 < svcFresh.authTokenExpireTime - tokenEnvLongTTL.now ∧
    (GetAccessToken svcFresh tokenEnvLongTTL).out = .ok "tok2" ∧
    (GetAccessToken svcFresh tokenEnvLongTTL).state.authTokenExpireTime =
      53858909563290448384 ∧
    (GetAccessToken svcFresh tokenEnvLongTTL).state.authTokenExpireTime ≠
      tokenEnvLongTTL.nowSet + 9223372037 * 1000000000 ∧
    (GetAccessToken svcFresh tokenEnvLongTTL).state.authTokenExpireTime <
      tokenEnvLongTTL.nowSet ∧
    tokenEnvJustAfter.now < tokenEnvLongTTL.nowSet + 9223372037 * 1000000000 ∧
    (GetAccessToken (GetAccessToken svcFresh tokenEnvLongTTL).state tokenEnvJustAfter).trace =
      [Event.tokenRequest "id" "secret"] ∧
    (GetAccessToken (GetAccessToken svcFresh tokenEnvLongTTL).state tokenEnvJustAfter).out =
      .ok "tok3" := by
  decide

/-- C3 (amended): `GetAccessToken` at clock reading `now`. If
`expires_at - now > 0` it returns the cached token, makes no call and leaves
the state unchanged. Otherwise it makes exactly one token request; when that
is answered with a decodable body it returns the new `access_token`, and
when moreover `expires_in` seconds fit a `time.Duration`
(`-9223372036 ≤ expires_in ≤ 9223372036`) it has stored `value :=
access_token` and `expires_at := now + expires_in seconds`, `now` being the
clock reading `SetAccessToken` takes when it stores the token; and any
number of later calls, made one after the other at instants before
`now + expires_in seconds`, issue no token, leave the cache as it is and
return the stored token. -/
theorem C3_GetAccessToken_cache_semantics (s : service) (env : TokenEnv) :
    (0 < s.authTokenExpireTime - env.now →
      GetAccessToken s env = ⟨s, [], .ok s.authToken⟩) ∧
    (¬ 0 < s.authTokenExpireTime - env.now →
      (GetAccessToken s env).trace = [Event.tokenRequest s.clientID s.clientSecret] ∧
      ∀ (code : Nat) (r : getAccessTokenResponse),
        env.tokenReply = .response code (.json r) →
        (GetAccessToken s env).out = .ok r.AccessToken ∧
        (-9223372036 ≤ r.ExpiresIn → r.ExpiresIn ≤ 9223372036 →
          (GetAccessToken s env).state =
            { s with authToken := r.AccessToken,
                     authTokenExpireTime := env.nowSet + r.ExpiresIn * 1000000000 } ∧
          ∀ envs : List TokenEnv,
            (∀ e ∈ envs, e.now < env.nowSet + r.ExpiresIn * 1000000000) →
            GetAccessTokens (GetAccessToken s env).state envs =
              ⟨(GetAccessToken s env).state, [],
               List.replicate envs.length (.ok r.AccessToken)⟩)) := by
  refine ⟨GetAccessToken_hit s env, ?_⟩
  intro hexp
  have hcond : time.Until env.now s.authTokenExpireTime ≤ 0 := by
    rw [Until_nonpos_iff]
    omega
  refine ⟨?_, ?_⟩
  · unfold GetAccessToken SetAccessToken
    rw [if_pos hcond]
    rcases env.tokenReply with e | ⟨c, e | e | r⟩ <;> rfl
  · intro code r hreply
    have hrun : GetAccessToken s env =
        ⟨{ s with authToken := r.AccessToken,
                  authTokenExpireTime := env.nowSet + time.secondsDuration r.ExpiresIn },
         [Event.tokenRequest s.clientID s.clientSecret], .ok r.AccessToken⟩ := by
      unfold GetAccessToken SetAccessToken
      rw [if_pos hcond, hreply]
    refine ⟨by rw [hrun], ?_⟩
    intro hlo hhi
    have hsec := secondsDuration_of_range r.ExpiresIn hlo hhi
    have hstate : (GetAccessToken s env).state =
        { s with authToken := r.AccessToken,
                 authTokenExpireTime := env.nowSet + r.ExpiresIn * 1000000000 } := by
      rw [hrun, hsec]
    refine ⟨hstate, ?_⟩
    intro envs henvs
    have hlt : ∀ e ∈ envs, e.now < (GetAccessToken s env).state.authTokenExpireTime := by
      rw [hstate]
      exact henvs
    have := GetAccessTokens_hits (GetAccessToken s env).state envs hlt
    rw [this, hstate]

/-- C3 (amended), at a valid cache (hit) and at a fresh service whose token
request is answered with `tok2` valid 3600 seconds, followed by two more calls. -/
theorem C3_GetAccessToken_cache_semantics_witness :
    (0 < svcSucceeded.authTokenExpireTime - tokenEnvCached.now ∧
      GetAccessToken svcSucceeded tokenEnvCached = ⟨svcSucceeded, [], .ok "tok"⟩) ∧
    (¬ 0 < svcFresh.authTokenExpireTime - tokenEnvIssues.now ∧
      tokenEnvIssues.tokenReply = .response 200 (.json ⟨"tok2", 3600, "Bearer", "payments"⟩) ∧
      (-9223372036 ≤ (3600 : Int) ∧ (3600 : Int) ≤ 9223372036) ∧
      (∀ e ∈ [tokenEnvLater, tokenEnvLater], e.now < tokenEnvIssues.nowSet + 3600 * 1000000000) ∧
      (GetAccessToken svcFresh tokenEnvIssues).trace = [Event.tokenRequest "id" "secret"] ∧
      (GetAccessToken svcFresh tokenEnvIssues).out = .ok "tok2" ∧
      (GetAccessToken svcFresh tokenEnvIssues).state =
        { svcFresh with authToken := "tok2",
                        authTokenExpireTime := 5007 + 3600 * 1000000000 } ∧
      GetAccessTokens (GetAccessToken svcFresh tokenEnvIssues).state
          [tokenEnvLater, tokenEnvLater] =
        ⟨(GetAccessToken svcFresh tokenEnvIssues).state, [], [.ok "tok2", .ok "tok2"]⟩) := by
  have h1 := (C3_GetAccessToken_cache_semantics svcSucceeded tokenEnvCached).1 (by decide)
  have h2 := (C3_GetAccessToken_cache_semantics svcFresh tokenEnvIssues).2 (by decide)
  have h3 := h2.2 200 ⟨"tok2", 3600, "Bearer", "payments"⟩ rfl
  have h4 := h3.2 (by decide) (by decide)
  exact ⟨⟨by decide, h1⟩, by decide, rfl, by decide, by decide, h2.1, h3.1, h4.1,
    h4.2 [tokenEnvLater, tokenEnvLater] (by decide)⟩

/-! ## C4: token failure propagation -/

/-- C4 (the code at the failing inputs): with no valid token cached, a token
request that fails in transport, is answered 401, or is answered with a body
that is not JSON, makes `GetAccessToken` return an empty token and no error;
`RequestPaymentURL` and `RequestPaymentData` then call the payment endpoints
with the empty token and go on to write to the table. -/
theorem C4_token_failure_not_propagated :
    (GetAccessToken svcFresh tokenEnvDown).out = .ok "" ∧
    (GetAccessToken svcFresh tokenEnvRejected).out = .ok "" ∧
    (GetAccessToken svcFresh tokenEnvGarbled).out = .ok "" ∧
    (RequestPaymentURL svcFresh envTokenDownCreatesT1 requestU1).trace =
      [Event.tokenRequest "id" "secret", Event.createPaymentRequest "" requestU1,
       Event.MapToTruelayer "U1" "T1"] ∧
    (RequestPaymentURL svcFresh envTokenDownCreatesT1 requestU1).out =
      .ok "https://auth.example/x" ∧
    (RequestPaymentData svcFreshMapped envTokenDownReportsExecuted "T1").trace =
      [Event.tokenRequest "id" "secret", Event.paymentStatusRequest "" "T1",
       Event.GetPaymentByTruelayerID "T1", Event.UpdatePaymentStatus "T1" "executed"] ∧
    (RequestPaymentData svcFreshMapped envTokenDownReportsExecuted "T1").out =
      .ok (scan rowMapped) := by
  decide

/-! ## C5: error contract of `createPayment` -/

/-- C5 (the code at the failing input): on a 200 reply whose `results` list
is empty, `createPayment` stops in an index-out-of-range panic instead of
returning an error; it has not called `MapToTruelayer` and the state is
unchanged. -/
theorem C5_createPayment_panics_on_empty_results :
    createPayment svcU1 payReplyNoResults none "tok" "U1" requestU1 =
      ⟨svcU1, [Event.createPaymentRequest "tok" requestU1], .panic indexOutOfRange⟩ ∧
    (RequestPaymentURL svcU1 { envCreatesT1 with payReply := payReplyNoResults } requestU1).out =
      .panic indexOutOfRange := by
  decide

/-! ## C6: reconciliation postcondition -/

/-- C6 (as stated, refuted): two prepared records `U1` and `U2`, neither
mapped yet (both carry the upstream id `""`, `unpaid`); the upstream reports
`executed`; `RequestPaymentData ""` succeeds, returns `U1` as read, and has
set the status of `U2` as well. -/
theorem C6_other_record_changed :
    (PreparePayment (PreparePayment svcEmpty ⟨"U1", none⟩ "M1" 1299).state
      ⟨"U2", none⟩ "M2" 500).state = svcU1U2 ∧
    rowU1 ∈ svcU1U2.paymentDAO ∧ rowU1.truelayer_payment_id = "" ∧ ¬ terminal rowU1.status ∧
    (RequestPaymentData svcU1U2 envReportsExecuted "").out = .ok (scan rowU1) ∧
    (RequestPaymentData svcU1U2 envReportsExecuted "").state.paymentDAO =
      [{ rowU1 with status := "executed" }, { rowU2 with status := "executed" }] ∧
    rowU2 ∉ (RequestPaymentData svcU1U2 envReportsExecuted "").state.paymentDAO := by
  decide

/-- C6 (amended): a successful `RequestPaymentData upstream_id` got a first
upstream result with a status `st`; it returns the first record carrying the
upstream id exactly as it was before the update; the table keeps its length
and order, every record carrying the upstream id has `status = st` and its
other fields unchanged, and every record with another upstream id is
unchanged. When only one record carries the upstream id, that is: this
record gets `status = st` and every other record is unchanged. -/
theorem C6_RequestPaymentData_postcondition
    (s : service) (env : DataEnv) (paymentID : String) (rec : GetPaymentDataResponse)
    (hok : (RequestPaymentData s env paymentID).out = .ok rec) :
    ∃ code r0 rest row, env.statusReply = .response code (.json ⟨r0 :: rest⟩) ∧
      s.paymentDAO.find? (fun r => decide (r.truelayer_payment_id = paymentID)) = some row ∧
      rec = scan row ∧
      (∀ i : Nat, (RequestPaymentData s env paymentID).state.paymentDAO[i]? =
        (s.paymentDAO[i]?).map fun r : Row =>
          if r.truelayer_payment_id = paymentID then { r with status := r0.Status } else r) ∧
      ((∀ r ∈ s.paymentDAO, r.truelayer_payment_id = paymentID → r = row) →
        ∀ i : Nat, (RequestPaymentData s env paymentID).state.paymentDAO[i]? =
          (s.paymentDAO[i]?).map fun r : Row =>
            if r = row then { row with status := r0.Status } else r) := by
  obtain ⟨code, r0, rest, hreply, hget, hdb⟩ := RequestPaymentData_ok_inv s env paymentID rec hok
  unfold GetPaymentByTruelayerID at hget
  rcases hq : env.queryErr with _ | e
  · simp only [hq] at hget
    rcases hf : s.paymentDAO.find? (fun r => decide (r.truelayer_payment_id = paymentID))
      with _ | row
    · simp [hf] at hget
    · simp only [hf, Result.ok.injEq] at hget
      refine ⟨code, r0, rest, row, hreply, hf, hget.symm, ?_, ?_⟩
      · intro i
        rw [hdb, List.getElem?_map]
      · intro huniq i
        rw [hdb, List.getElem?_map]
        have hrow : row.truelayer_payment_id = paymentID := by
          simpa using List.find?_some hf
        rcases hi : s.paymentDAO[i]? with _ | r
        · rfl
        · have hmem : r ∈ s.paymentDAO := List.mem_iff_getElem?.mpr ⟨i, hi⟩
          simp only [Option.map_some']
          by_cases hr : r.truelayer_payment_id = paymentID
          · have := huniq r hmem hr
            subst this
            simp [hr]
          · have hne : r ≠ row := fun h => hr (h ▸ hrow)
            simp [hr, hne]
  · simp [hq] at hget

/-- C6 (amended), at the record `U1` mapped to `T1` with the upstream
reporting `executed`. -/
theorem C6_RequestPaymentData_postcondition_witness :
    (RequestPaymentData svcMapped envReportsExecuted "T1").out = .ok (scan rowMapped) ∧
    ∃ code r0 rest row, envReportsExecuted.statusReply = .response code (.json ⟨r0 :: rest⟩) ∧
      svcMapped.paymentDAO.find? (fun r => decide (r.truelayer_payment_id = "T1")) = some row ∧
      scan rowMapped = scan row ∧
      (∀ i : Nat, (RequestPaymentData svcMapped envReportsExecuted "T1").state.paymentDAO[i]? =
        (svcMapped.paymentDAO[i]?).map fun r : Row =>
          if r.truelayer_payment_id = "T1" then { r with status := r0.Status } else r) ∧
      ((∀ r ∈ svcMapped.paymentDAO, r.truelayer_payment_id = "T1" → r = row) →
        ∀ i : Nat, (RequestPaymentData svcMapped envReportsExecuted "T1").state.paymentDAO[i]? =
          (svcMapped.paymentDAO[i]?).map fun r : Row =>
            if r = row then { row with status := r0.Status } else r) :=
  ⟨by decide,
   C6_RequestPaymentData_postcondition svcMapped envReportsExecuted "T1" (scan rowMapped)
     (by decide)⟩

/-! ## C7: prepare, then read -/

/-- C7: when `PreparePayment receiver_id amount` succeeds returning `U`,
`GetPaymentData U` right afterwards (on a working store) returns
`uuid = U`, the receiver id, the amount, status `unpaid` and an empty
truelayer payment id; the rows stored before are all still there,
unchanged and in place, with one row added, and every read that succeeded
before gives the same record. -/
theorem C7_prepare_then_read
    (s : service) (env : PrepareEnv) (receiverID : String) (amount : Int) (U : String)
    (hok : (PreparePayment s env receiverID amount).out = .ok U) :
    (GetPaymentData (PreparePayment s env receiverID amount).state none U).out =
      .ok { UUID := U, ReceiverID := receiverID, Amount := amount, Status := "unpaid",
            TrueLayerPaymentID := "" } ∧
    (PreparePayment s env receiverID amount).state.paymentDAO.length =
      s.paymentDAO.length + 1 ∧
    (∀ i : Nat, i < s.paymentDAO.length →
      (PreparePayment s env receiverID amount).state.paymentDAO[i]? = s.paymentDAO[i]?) ∧
    (∀ u rec, (GetPaymentData s none u).out = .ok rec →
      (GetPaymentData (PreparePayment s env receiverID amount).state none u).out = .ok rec) := by
  obtain ⟨-, hfresh, hstate⟩ := PreparePayment_ok_inv s env receiverID amount U hok
  have hnone : s.paymentDAO.find? (fun r => decide (r.id = U)) = none := by
    rw [List.find?_eq_none]
    intro r hr
    simpa using hfresh r hr
  rw [hstate]
  refine ⟨?_, ?_, ?_, ?_⟩
  · simp [GetPaymentData, GetPayment, List.find?_append, hnone, scan]
  · simp
  · intro i hi
    simp [List.getElem?_append_left hi]
  · intro u rec hget
    unfold GetPaymentData GetPayment at hget ⊢
    rcases hf : s.paymentDAO.find? (fun r => decide (r.id = u)) with _ | r
    · simp [hf] at hget
    · simp only [hf] at hget
      simp only [List.find?_append, hf]
      simpa using hget

/-- C7, at the first scenario of the specification: prepare `M1`, 1299 on an
empty table, the store drawing the id `U1`. -/
theorem C7_prepare_then_read_witness :
    (PreparePayment svcEmpty ⟨"U1", none⟩ "M1" 1299).out = .ok "U1" ∧
    (GetPaymentData (PreparePayment svcEmpty ⟨"U1", none⟩ "M1" 1299).state none "U1").out =
      .ok { UUID := "U1", ReceiverID := "M1", Amount := 1299, Status := "unpaid",
            TrueLayerPaymentID := "" } :=
  ⟨by decide, (C7_prepare_then_read svcEmpty ⟨"U1", none⟩ "M1" 1299 "U1" (by decide)).1⟩

/-! ## C8: updates that match no record -/

/-- C8 (as stated, refuted): on a working store, `MapToTruelayer` for an id
no record has and `UpdatePaymentStatus` for an upstream id no record has
both return no error. -/
theorem C8_no_error_without_match :
    (∀ r ∈ svcU1.paymentDAO, r.id ≠ "U9") ∧
    MapToTruelayer svcU1.paymentDAO none "U9" "T1" = (svcU1.paymentDAO, none) ∧
    (∀ r ∈ svcU1.paymentDAO, r.truelayer_payment_id ≠ "T9") ∧
    UpdatePaymentStatus svcU1.paymentDAO none "T9" "executed" = (svcU1.paymentDAO, none) := by
  decide

/-- C8 (amended): when no record has the local id, `MapToTruelayer` leaves
the table unchanged and returns just what the store returned for the
`UPDATE` (no error on a working store); when no record has the upstream id,
the same holds of `UpdatePaymentStatus`. -/
theorem C8_update_without_match
    (db : DB) (execErr : Option String) (uuid truelayerID status : String) :
    ((∀ r ∈ db, r.id ≠ uuid) →
      MapToTruelayer db execErr uuid truelayerID = (db, execErr)) ∧
    ((∀ r ∈ db, r.truelayer_payment_id ≠ truelayerID) →
      UpdatePaymentStatus db execErr truelayerID status = (db, execErr)) := by
  constructor
  · intro h
    unfold MapToTruelayer
    rcases execErr with _ | e
    · have : (db.map fun r =>
          if r.id = uuid then { r with truelayer_payment_id := truelayerID } else r) =
          db.map id := List.map_congr_left fun r hr => by simp [h r hr]
      simp [this]
    · rfl
  · intro h
    unfold UpdatePaymentStatus
    rcases execErr with _ | e
    · have : (db.map fun r =>
          if r.truelayer_payment_id = truelayerID then { r with status := status } else r) =
          db.map id := List.map_congr_left fun r hr => by simp [h r hr]
      simp [this]
    · rfl

/-- C8 (amended), at a table holding only `U1`, unmapped. -/
theorem C8_update_without_match_witness :
    ((∀ r ∈ svcU1.paymentDAO, r.id ≠ "U9") ∧
      MapToTruelayer svcU1.paymentDAO none "U9" "T1" = (svcU1.paymentDAO, none)) ∧
    ((∀ r ∈ svcU1.paymentDAO, r.truelayer_payment_id ≠ "T1") ∧
      UpdatePaymentStatus svcU1.paymentDAO none "T1" "executed" = (svcU1.paymentDAO, none)) :=
  ⟨⟨by decide, (C8_update_without_match svcU1.paymentDAO none "U9" "T1" "executed").1 (by decide)⟩,
   ⟨by decide, (C8_update_without_match svcU1.paymentDAO none "U9" "T1" "executed").2 (by decide)⟩⟩

/-! ## C9: amount on creation -/

/-- C9 (as stated, refuted): `PreparePayment` with amount 0 and with amount
-5 succeeds and the record is stored with that amount. -/
theorem C9_nonpositive_amount_accepted :
    (PreparePayment svcEmpty ⟨"U1", none⟩ "M1" 0).out = .ok "U1" ∧
    (GetPaymentData (PreparePayment svcEmpty ⟨"U1", none⟩ "M1" 0).state none "U1").out =
      .ok { UUID := "U1", ReceiverID := "M1", Amount := 0, Status := "unpaid",
            TrueLayerPaymentID := "" } ∧
    (PreparePayment svcEmpty ⟨"U1", none⟩ "M1" (-5)).out = .ok "U1" ∧
    (GetPaymentData (PreparePayment svcEmpty ⟨"U1", none⟩ "M1" (-5)).state none "U1").out =
      .ok { UUID := "U1", ReceiverID := "M1", Amount := -5, Status := "unpaid",
            TrueLayerPaymentID := "" } := by
  decide

/-- C9 (amended): `PreparePayment` does not look at the amount. For every
receiver id and every amount, also one that is zero or negative: on a
working store, with an id not yet in the table, it succeeds and persists
exactly one record, carrying that amount; whether it fails does not depend
on the amount, and when it fails it persists no record. -/
theorem C9_PreparePayment_any_amount
    (s : service) (env : PrepareEnv) (receiverID : String) (amount : Int) :
    (env.execErr = none → (∀ r ∈ s.paymentDAO, r.id ≠ env.uuidValue) →
      (PreparePayment s env receiverID amount).out = .ok env.uuidValue ∧
      (PreparePayment s env receiverID amount).state.paymentDAO =
        s.paymentDAO ++ [{ id := env.uuidValue, receiver_id := receiverID, amount := amount,
                           status := "unpaid", truelayer_payment_id := "" }]) ∧
    (∀ amount2 : Int, (PreparePayment s env receiverID amount).out =
      (PreparePayment s env receiverID amount2).out) ∧
    (∀ e, (PreparePayment s env receiverID amount).out = .error e →
      (PreparePayment s env receiverID amount).state = s) := by
  refine ⟨?_, ?_, ?_⟩
  · intro he hfresh
    have hany : (s.paymentDAO.any fun r => decide (r.id = env.uuidValue)) = false := by
      rw [Bool.eq_false_iff]
      intro h
      obtain ⟨r, hr, hid⟩ := List.any_eq_true.mp h
      exact hfresh r hr (by simpa using hid)
    simp [PreparePayment, InsertPayment, he, hany, statusDefault, truelayerPaymentIDDefault]
  · intro amount2
    unfold PreparePayment InsertPayment
    rcases env.execErr with _ | e
    · by_cases hany : (s.paymentDAO.any fun r => decide (r.id = env.uuidValue)) = true
      · simp [hany]
      · simp [hany]
    · rfl
  · intro e
    unfold PreparePayment InsertPayment
    rcases env.execErr with _ | e2
    · by_cases hany : (s.paymentDAO.any fun r => decide (r.id = env.uuidValue)) = true
      · simp [hany]
      · simp [hany]
    · simp

/-- C9 (amended), at amount -5 on an empty table. -/
theorem C9_PreparePayment_any_amount_witness :
    ((⟨"U1", none⟩ : PrepareEnv).execErr = none ∧ (∀ r ∈ svcEmpty.paymentDAO, r.id ≠ "U1")) ∧
    (PreparePayment svcEmpty ⟨"U1", none⟩ "M1" (-5)).out = .ok "U1" ∧
    (PreparePayment svcEmpty ⟨"U1", none⟩ "M1" (-5)).state.paymentDAO =
      svcEmpty.paymentDAO ++ [{ id := "U1", receiver_id := "M1", amount := -5,
                                status := "unpaid", truelayer_payment_id := "" }] :=
  ⟨by decide,
   (C9_PreparePayment_any_amount svcEmpty ⟨"U1", none⟩ "M1" (-5)).1 (by decide) (by decide)⟩

/-! ## C10: responses of the callback -/

/-- C10 (the code at the failing input): `GET /api/callback?payment_id=T1`
for the stored record `U1` / `T1`, the status endpoint answering with a JSON
body without results. `RequestPaymentData` neither returns an error nor a
record: it panics on `response.Results[0]`, and `BankCallback` writes no
response at all, neither 500 nor 302, behind the middleware (content type
already set on the writer) as well as on a writer without headers. -/
theorem C10_callback_aborts_on_empty_results :
    Values.get queryT1 "payment_id" = ["T1"] ∧
    (RequestPaymentData svcMapped envReportsNothing "T1").out = .panic indexOutOfRange ∧
    BankCallback true "GET" svcMapped envReportsNothing queryT1 =
      ⟨svcMapped, some "T1",
       [Event.paymentStatusRequest "tok" "T1", Event.GetPaymentByTruelayerID "T1"],
       .aborted indexOutOfRange⟩ ∧
    BankCallback false "GET" svcMapped envReportsNothing queryT1 =
      ⟨svcMapped, some "T1",
       [Event.paymentStatusRequest "tok" "T1", Event.GetPaymentByTruelayerID "T1"],
       .aborted indexOutOfRange⟩ := by
  decide

/-! ## Lemmas on concurrent callers -/

open concurrent

/-- A goroutine that runs alone is `GetAccessToken`: after its four steps
the shared service, the calls made and the result are those of the call. -/
theorem solo_run_eq_GetAccessToken (s : service) (env : TokenEnv) :
    (arrive s [env]).run [0, 0, 0, 0] =
      ⟨(GetAccessToken s env).state, (GetAccessToken s env).trace,
       [⟨env, .done (GetAccessToken s env).out⟩]⟩ := by
  by_cases h : time.Until env.now s.authTokenExpireTime ≤ 0
  · rcases hr : env.tokenReply with e | ⟨c, e | e | r⟩ <;>
      simp [arrive, Machine.run, Machine.step, stepGoroutine, GetAccessToken, SetAccessToken, h, hr]
  · simp [arrive, Machine.run, Machine.step, stepGoroutine, GetAccessToken, h]

theorem Machine.run_append (m : Machine) (a b : List Nat) :
    m.run (a ++ b) = (m.run a).run b := by
  induction a generalizing m with
  | nil => rfl
  | cons i is ih => simp [Machine.run, ih]

/-- A step of a goroutine behind the first one does not touch the first. -/
theorem Machine.step_cons_succ (s : service) (tr : List Event) (g : Goroutine)
    (gs : List Goroutine) (i : Nat) :
    (Machine.step ⟨s, tr, g :: gs⟩ (i + 1)) =
      ⟨(Machine.step ⟨s, tr, gs⟩ i).shared, (Machine.step ⟨s, tr, gs⟩ i).trace,
       g :: (Machine.step ⟨s, tr, gs⟩ i).callers⟩ := by
  unfold Machine.step
  rcases h : gs[i]? with _ | g2 <;> simp [h]

theorem Machine.run_cons_map_succ (s : service) (tr : List Event) (g : Goroutine)
    (gs : List Goroutine) (sched : List Nat) :
    (Machine.run ⟨s, tr, g :: gs⟩ (sched.map fun i => i + 1)) =
      ⟨(Machine.run ⟨s, tr, gs⟩ sched).shared, (Machine.run ⟨s, tr, gs⟩ sched).trace,
       g :: (Machine.run ⟨s, tr, gs⟩ sched).callers⟩ := by
  induction sched generalizing s tr gs with
  | nil => rfl
  | cons i is ih =>
    simp only [List.map_cons, Machine.run, Machine.step_cons_succ]
    exact ih _ _ _

/-- When every caller finds the cache expired and all test it before any
goes on, all of them stand before `http.Post`; nothing is written or called. -/
theorem run_arrive_range (s : service) (envs : List TokenEnv)
    (hexp : ∀ e ∈ envs, ¬ 0 < s.authTokenExpireTime - e.now) :
    (arrive s envs).run (List.range envs.length) =
      ⟨s, [], envs.map fun env => ⟨env, .post⟩⟩ := by
  induction envs with
  | nil => rfl
  | cons e es ih =>
    have he : time.Until e.now s.authTokenExpireTime ≤ 0 := by
      rw [Until_nonpos_iff]
      have := hexp e (List.mem_cons_self _ _)
      omega
    have hes : ∀ e2 ∈ es, ¬ 0 < s.authTokenExpireTime - e2.now :=
      fun e2 h2 => hexp e2 (List.mem_cons_of_mem _ h2)
    have ih2 := ih hes
    unfold arrive at ih2 ⊢
    rw [List.length_cons, List.range_succ_eq_map, List.map_cons]
    simp only [Machine.run]
    have hstep : Machine.step ⟨s, [], (⟨e, .check⟩ : Goroutine) ::
        es.map fun env => (⟨env, .check⟩ : Goroutine)⟩ 0 =
        ⟨s, [], (⟨e, .post⟩ : Goroutine) :: es.map fun env => (⟨env, .check⟩ : Goroutine)⟩ := by
      simp [Machine.step, stepGoroutine, he]
    rw [hstep]
    have := Machine.run_cons_map_succ s [] ⟨e, .post⟩
      (es.map fun env => (⟨env, .check⟩ : Goroutine)) (List.range es.length)
    simp only [Nat.succ_eq_add_one] at this ⊢
    rw [this, ih2]
    rfl

/-- One step of a goroutine that stands at a point its reply allows: it
stands at such a point afterwards, with the same environment, and it has made
a token request exactly when it left the point before `http.Post`. -/
theorem stepGoroutine_placed (s : service) (g : Goroutine) (h : placed g) :
    placed (stepGoroutine s g).out ∧ (stepGoroutine s g).out.env = g.env ∧
    issuances (stepGoroutine s g).trace + (atPost (stepGoroutine s g).out).toNat =
      (atPost g).toNat := by
  rcases g with ⟨env, pc⟩
  cases pc with
  | check => exact absurd h (by simp [placed])
  | readToken => exact absurd h (by simp [placed])
  | post =>
    rcases hr : env.tokenReply with e | ⟨c, e | e | r⟩ <;>
      simp [stepGoroutine, hr, placed, ownResult, issuances, isTokenRequest, atPost]
  | storeExpire r =>
    simpa [stepGoroutine, placed, issuances, atPost] using h
  | storeToken r =>
    obtain ⟨c, hc⟩ : ∃ code, env.tokenReply = .response code (.json r) := by
      simpa [placed] using h
    simp [stepGoroutine, placed, ownResult, hc, issuances, atPost]
  | done out =>
    simpa [stepGoroutine, placed, issuances, atPost] using h

/-- Replacing a goroutine changes the number of those before `http.Post` by
what the replaced and the new one count. -/
theorem pending_set (gs : List Goroutine) (i : Nat) (g g2 : Goroutine)
    (h : gs[i]? = some g) :
    pending (gs.set i g2) + (atPost g).toNat = pending gs + (atPost g2).toNat := by
  induction gs generalizing i with
  | nil => simp at h
  | cons x xs ih =>
    cases i with
    | zero =>
      simp only [List.getElem?_cons_zero, Option.some.injEq] at h
      subst h
      simp only [pending, List.set_cons_zero, List.countP_cons]
      cases atPost x <;> cases atPost g2 <;> simp
    | succ j =>
      simp only [List.getElem?_cons_succ] at h
      have := ih j h
      simp only [pending, List.set_cons_succ, List.countP_cons] at this ⊢
      omega

/-- A step of the machine keeps: every goroutine at a point its reply
allows, the environments in place, and the sum of the token requests made
and the goroutines still before `http.Post`. -/
theorem Machine.step_placed (m : Machine) (i : Nat) (h : ∀ g ∈ m.callers, placed g) :
    (∀ g ∈ (m.step i).callers, placed g) ∧
    (m.step i).callers.map (fun g => g.env) = m.callers.map (fun g => g.env) ∧
    issuances (m.step i).trace + pending (m.step i).callers =
      issuances m.trace + pending m.callers := by
  unfold Machine.step
  rcases hi : m.callers[i]? with _ | g
  · exact ⟨h, rfl, rfl⟩
  · have hg : placed g := h g (List.getElem?_mem hi)
    obtain ⟨hp, henv, hcount⟩ := stepGoroutine_placed m.shared g hg
    refine ⟨?_, ?_, ?_⟩
    · intro g2 h2
      rcases List.mem_or_eq_of_mem_set h2 with h3 | h3
      · exact h g2 h3
      · exact h3 ▸ hp
    · simp only
      rw [List.map_set, henv]
      apply List.ext_getElem?
      intro n
      by_cases hn : i = n
      · subst hn
        simp [List.getElem?_set, hi]
        exact (List.getElem?_eq_some.mp hi).1
      · simp [List.getElem?_set, hn]
    · have hset := pending_set m.callers i g (stepGoroutine m.shared g).out hi
      simp only [issuances, List.countP_append] at hcount ⊢
      omega

/-- The same, along a whole schedule. -/
theorem Machine.run_placed (m : Machine) (sched : List Nat)
    (h : ∀ g ∈ m.callers, placed g) :
    (∀ g ∈ (m.run sched).callers, placed g) ∧
    (m.run sched).callers.map (fun g => g.env) = m.callers.map (fun g => g.env) ∧
    issuances (m.run sched).trace + pending (m.run sched).callers =
      issuances m.trace + pending m.callers := by
  induction sched generalizing m with
  | nil => exact ⟨h, rfl, rfl⟩
  | cons i is ih =>
    obtain ⟨h1, h2, h3⟩ := Machine.step_placed m i h
    obtain ⟨k1, k2, k3⟩ := ih (m.step i) h1
    exact ⟨k1, k2.trans h2, k3.trans h3⟩

/-- No goroutine that has returned stands before `http.Post`. -/
theorem pending_eq_zero_of_returned (gs : List Goroutine)
    (h : ∀ g ∈ gs, returned g = true) : pending gs = 0 := by
  unfold pending
  rw [List.countP_eq_zero]
  intro g hg
  have := h g hg
  rcases g with ⟨env, pc⟩
  cases pc <;> simp_all [returned, atPost]

/-- Three steps of a goroutine before `http.Post` make it return what its
own reply gives; the other goroutines stay as they are. -/
theorem run_three_of_post (s : service) (tr : List Event) (e : TokenEnv)
    (gs : List Goroutine) :
    ∃ s2 tr2, Machine.run ⟨s, tr, ⟨e, .post⟩ :: gs⟩ [0, 0, 0] =
      ⟨s2, tr2, ⟨e, .done (ownResult e)⟩ :: gs⟩ := by
  rcases hr : e.tokenReply with err | ⟨c, err | err | r⟩ <;>
    simp [Machine.run, Machine.step, stepGoroutine, hr, ownResult]

/-- From all goroutines standing before `http.Post`, the schedule
`finishAll` makes every one of them return. -/
theorem run_finishAll_returned (s : service) (tr : List Event) (envs : List TokenEnv) :
    ∀ g ∈ (Machine.run ⟨s, tr, envs.map fun env => ⟨env, .post⟩⟩
      (finishAll envs.length)).callers, returned g = true := by
  induction envs generalizing s tr with
  | nil => simp [finishAll, Machine.run]
  | cons e es ih =>
    obtain ⟨s2, tr2, h3⟩ := run_three_of_post s tr e (es.map fun env => ⟨env, .post⟩)
    simp only [List.map_cons, List.length_cons, finishAll]
    rw [Machine.run_append, h3, Machine.run_cons_map_succ]
    intro g hg
    rcases List.mem_cons.mp hg with rfl | hg
    · rfl
    · exact ih s2 tr2 g hg

/-! ## C11: token single-flight -/

/-- C11 (as stated, refuted): two callers A and B arrive at a service whose
cache is empty and both test it before either stores. Two token requests are
made, not one. Each caller returns the token of its own reply, and the cache
ends with the token of A next to the expire time of B, so that a third
caller, after the 60 seconds of `tokA` are over, is still handed `tokA`
without any request. -/
theorem C11_two_callers_two_issuances :
    (¬ 0 < svcFresh.authTokenExpireTime - envA.now ∧
      ¬ 0 < svcFresh.authTokenExpireTime - envB.now) ∧
    issuances (raceRun svcFresh [envA, envB] schedAB).trace = 2 ∧
    (raceRun svcFresh [envA, envB] schedAB).callers =
      [⟨envA, .done (.ok "tokA")⟩, ⟨envB, .done (.ok "tokB")⟩] ∧
    (raceRun svcFresh [envA, envB] schedAB).shared.authToken = "tokA" ∧
    (raceRun svcFresh [envA, envB] schedAB).shared.authTokenExpireTime =
      envB.nowSet + 3600 * 1000000000 ∧
    envA.nowSet + 60 * 1000000000 < envC.now ∧
    GetAccessToken (raceRun svcFresh [envA, envB] schedAB).shared envC =
      ⟨(raceRun svcFresh [envA, envB] schedAB).shared, [], .ok "tokA"⟩ := by
  decide

/-- C11 (amended): `GetAccessToken` has no single-flight. For N callers that
arrive with an expired or empty cache and all test it before any of them
goes on, then in every interleaving of their further steps: the token
requests made and the callers still about to make theirs add up to N; each
caller keeps its own reply; a caller that has returned returned the
`access_token` of its own reply (the empty token if its request failed); and
once all have returned exactly N token requests were made, one per caller.
The schedule `finishAll` lets all of them return. -/
theorem C11_every_arriving_caller_issues (s : service) (envs : List TokenEnv)
    (hexp : ∀ e ∈ envs, ¬ 0 < s.authTokenExpireTime - e.now) (sched : List Nat) :
    issuances (raceRun s envs sched).trace + pending (raceRun s envs sched).callers =
      envs.length ∧
    (raceRun s envs sched).callers.map (fun g => g.env) = envs ∧
    (∀ g ∈ (raceRun s envs sched).callers, ∀ out, g.pc = .done out → out = ownResult g.env) ∧
    ((∀ g ∈ (raceRun s envs sched).callers, returned g = true) →
      issuances (raceRun s envs sched).trace = envs.length) ∧
    (∀ g ∈ (raceRun s envs (finishAll envs.length)).callers, returned g = true) ∧
    issuances (raceRun s envs (finishAll envs.length)).trace = envs.length := by
  have hstart : ∀ sch, raceRun s envs sch =
      Machine.run ⟨s, [], envs.map fun env => ⟨env, .post⟩⟩ sch := by
    intro sch
    unfold raceRun
    rw [Machine.run_append, run_arrive_range s envs hexp]
  have hplaced : ∀ g ∈ (⟨s, [], envs.map fun env => ⟨env, .post⟩⟩ : Machine).callers,
      placed g := by
    intro g hg
    obtain ⟨e, _, rfl⟩ := List.mem_map.mp hg
    simp [placed]
  have hpend : pending (envs.map fun env => (⟨env, .post⟩ : Goroutine)) = envs.length := by
    unfold pending
    rw [List.countP_eq_length.mpr, List.length_map]
    intro g hg
    obtain ⟨e, _, rfl⟩ := List.mem_map.mp hg
    rfl
  have hinv : ∀ sch,
      (∀ g ∈ (raceRun s envs sch).callers, placed g) ∧
      (raceRun s envs sch).callers.map (fun g => g.env) = envs ∧
      issuances (raceRun s envs sch).trace + pending (raceRun s envs sch).callers =
        envs.length := by
    intro sch
    obtain ⟨h1, h2, h3⟩ := Machine.run_placed _ sch hplaced
    rw [hstart sch]
    refine ⟨h1, ?_, ?_⟩
    · rw [h2]
      simp [List.map_map, Function.comp_def]
    · rw [h3]
      simp [issuances, hpend]
  have hall : ∀ sch, (∀ g ∈ (raceRun s envs sch).callers, returned g = true) →
      issuances (raceRun s envs sch).trace = envs.length := by
    intro sch hret
    have := (hinv sch).2.2
    rw [pending_eq_zero_of_returned _ hret] at this
    simpa using this
  have hfin : ∀ g ∈ (raceRun s envs (finishAll envs.length)).callers, returned g = true := by
    rw [hstart]
    exact run_finishAll_returned s [] envs
  refine ⟨(hinv sched).2.2, (hinv sched).2.1, ?_, hall sched, hfin, hall _ hfin⟩
  intro g hg out hout
  have := (hinv sched).1 g hg
  rcases g with ⟨env, pc⟩
  simp only at hout
  subst hout
  simpa [placed] using this

/-- C11 (amended), at the two callers A and B on a service without a token,
with the interleaving `schedAB`. -/
theorem C11_every_arriving_caller_issues_witness :
    (∀ e ∈ [envA, envB], ¬ 0 < svcFresh.authTokenExpireTime - e.now) ∧
    (∀ g ∈ (raceRun svcFresh [envA, envB] schedAB).callers, returned g = true) ∧
    issuances (raceRun svcFresh [envA, envB] schedAB).trace = [envA, envB].length :=
  ⟨by decide, by decide,
   (C11_every_arriving_caller_issues svcFresh [envA, envB] (by decide) schedAB).2.2.2.1
     (by decide)⟩

end Banklink
